import Mathlib

set_option linter.unusedVariables false

/-!
# Verification of the SEO article-generation pipeline

Shallow embedding of the pipeline's pure logic (quality validator, keyword
analysis, markdown section parser, outline fallback, one-shot content
validation, orchestrator persistence) from the repository sources:
`app/agents/quality_validator.py`, `app/agents/seo_metadata_generator.py`,
`app/agents/content_generator.py`, `app/agents/outline_generator.py` and
`app/agents/orchestrator.py`.

Python `str` is modelled as `List Char`; Python `int` as `ℤ` (or `ℕ` for
values that are lengths); Python `float` arithmetic as exact `ℚ` arithmetic.
Character classes (`\w`, `\s`, `str.lower`, `str.title`) are modelled at
ASCII granularity, matching the repository's ASCII prompt/content strings.
-/

/-- ASCII whitespace, as recognised by Python `str.split()` / `str.strip()`
and the regex class `\s` (space, tab, newline, carriage return, vertical
tab, form feed). -/
def isSpaceChar (c : Char) : Bool :=
  c = ' ' || c = '\t' || c = '\n' || c = '\r' || c = '\x0b' || c = '\x0c'

/-- Regex word character `\w` (ASCII): letters, digits, underscore. -/
def wordChar (c : Char) : Bool := c.isAlphanum || c = '_'

/-- `str.lower()` (ASCII). -/
def lowerChars (s : List Char) : List Char := s.map Char.toLower

/-- `str.strip()`: remove leading and trailing whitespace. -/
def pyStrip (s : List Char) : List Char :=
  ((s.dropWhile isSpaceChar).reverse.dropWhile isSpaceChar).reverse

/-- `str.split()` with no separator: split on whitespace runs, no empty
tokens.  `pySplitAux acc s` carries the current (reversed) token. -/
def pySplitAux : List Char → List Char → List (List Char)
  | acc, [] => if acc.isEmpty then [] else [acc.reverse]
  | acc, c :: cs =>
    if isSpaceChar c then
      if acc.isEmpty then pySplitAux [] cs else acc.reverse :: pySplitAux [] cs
    else pySplitAux (c :: acc) cs

/-- Python `s.split()` (whitespace tokenisation). -/
def pySplit (s : List Char) : List (List Char) := pySplitAux [] s

/-- `' '.join(tokens)`. -/
def joinSpace (ts : List (List Char)) : List Char := List.intercalate [' '] ts

/-- `'\n'.join(lines)`. -/
def joinLines : List (List Char) → List Char
  | [] => []
  | [l] => l
  | l :: l2 :: ls => l ++ '\n' :: joinLines (l2 :: ls)

/-- Split a string into its lines at `'\n'` (the line view used to model the
`re.MULTILINE` anchors `^`/`$`: `n` newlines produce `n+1` lines). -/
def splitLines : List Char → List (List Char)
  | [] => [[]]
  | c :: cs =>
    if c = '\n' then [] :: splitLines cs
    else
      match splitLines cs with
      | [] => [[c]]
      | l :: ls => (c :: l) :: ls

/-- Decimal digit character for `d < 10`. -/
def digitChar (d : ℕ) : Char := Char.ofNat (48 + d)

/-- Decimal digits of `n`, most significant first (fuel-based so that it
reduces by `decide`; `natDigits` supplies enough fuel). -/
def natDigitsAux : ℕ → ℕ → List Char
  | 0, _ => []
  | fuel + 1, n =>
    if n < 10 then [digitChar n]
    else natDigitsAux fuel (n / 10) ++ [digitChar (n % 10)]

/-- `str(n)` for a natural number. -/
def natDigits (n : ℕ) : List Char := natDigitsAux (n + 1) n

/-- `str(z)` for an integer. -/
def intChars (z : ℤ) : List Char :=
  if z < 0 then '-' :: natDigits z.natAbs else natDigits z.natAbs

/-- Floor of a rational (via floor division of numerator by denominator). -/
def ratFloor (q : ℚ) : ℤ := Int.fdiv q.num q.den

/-- Round-half-to-even to an integer, the rounding used by Python's
`round()` and `format` (modelled over exact rationals). -/
def roundHalfEven (q : ℚ) : ℤ :=
  let f := ratFloor q
  let r := q - (f : ℚ)
  if r < 1 / 2 then f
  else if 1 / 2 < r then f + 1
  else if f % 2 = 0 then f else f + 1

/-- Python `round(q, 1)`. -/
def pyRound1 (q : ℚ) : ℚ := (roundHalfEven (q * 10) : ℚ) / 10

/-- Python `round(q, 2)`. -/
def pyRound2 (q : ℚ) : ℚ := (roundHalfEven (q * 100) : ℚ) / 100

/-- Digits of `n` padded to at least `w` characters with leading zeros. -/
def natDigitsPad (w : ℕ) (n : ℕ) : List Char :=
  List.replicate (w - (natDigits n).length) '0' ++ natDigits n

/-- Python `f"{q:.2f}"`: fixed-point rendering with two decimals. -/
def format2 (q : ℚ) : List Char :=
  let n := roundHalfEven (q * 100)
  let a := n.natAbs
  (if n < 0 then ['-'] else []) ++ natDigits (a / 100) ++ ['.'] ++ natDigitsPad 2 (a % 100)

/-- Python `f"{q:.1f}"`: fixed-point rendering with one decimal. -/
def format1 (q : ℚ) : List Char :=
  let n := roundHalfEven (q * 10)
  let a := n.natAbs
  (if n < 0 then ['-'] else []) ++ natDigits (a / 10) ++ ['.'] ++ natDigitsPad 1 (a % 10)

/-- Python `text.count(sub)` for nonempty `sub`: left-to-right scan counting
non-overlapping occurrences.  `skip` suppresses match attempts at positions
covered by the previous match. -/
def countSubAux (sub : List Char) : List Char → ℕ → ℕ
  | [], _ => 0
  | _ :: cs, skip + 1 => countSubAux sub cs skip
  | c :: cs, 0 =>
    if sub.isPrefixOf (c :: cs) then 1 + countSubAux sub cs (sub.length - 1)
    else countSubAux sub cs 0

/-- Python `text.count(sub)` (the empty substring is counted once per
position, i.e. `len(text) + 1` times). -/
def countSub (text sub : List Char) : ℕ :=
  if sub.isEmpty then text.length + 1 else countSubAux sub text 0

/-- A `\b` word boundary between an optional previous character and an
optional next character (string edges count as non-word). -/
def boundaryAt (a b : Option Char) : Bool :=
  (match a with | some c => wordChar c | none => false) !=
  (match b with | some c => wordChar c | none => false)

/-- Does the pattern `\b<kw>\b` (with `kw` a literal, already lowercased
keyword) match at the current position?  `prev` is the character just before
the position, `rest` the text from the position on. -/
def wbMatchHere (kw : List Char) (prev : Option Char) (rest : List Char) : Bool :=
  match kw with
  | [] => boundaryAt prev rest.head?
  | k :: ks =>
    (k :: ks).isPrefixOf rest &&
    boundaryAt prev (some k) &&
    boundaryAt (some (ks.getLastD k)) (rest.drop (ks.length + 1)).head?

/-- `re.search(r'\b' + re.escape(kw) + r'\b', text)`: try the pattern at
every position. -/
def wbSearchAux (kw : List Char) : Option Char → List Char → Bool
  | prev, [] => wbMatchHere kw prev []
  | prev, c :: cs => wbMatchHere kw prev (c :: cs) || wbSearchAux kw (some c) cs

/-- `re.search` of the word-bounded keyword pattern in `text` (both
arguments already lowercased by the caller, as in the source). -/
def wbSearch (kw text : List Char) : Bool := wbSearchAux kw none text

/-- `len(re.findall(...))` for a nonempty keyword: left-to-right scan with
non-overlapping matches; after a match the next `len(kw) - 1` positions are
skipped (`skip` counter), with `prev` tracking the preceding character. -/
def wbCountNE (kw : List Char) : Option Char → ℕ → List Char → ℕ
  | _, _, [] => 0
  | prev, 0, c :: cs =>
    if wbMatchHere kw prev (c :: cs) then 1 + wbCountNE kw (some c) (kw.length - 1) cs
    else wbCountNE kw (some c) 0 cs
  | _, skip + 1, c :: cs => wbCountNE kw (some c) skip cs

/-- `len(re.findall(r'\b\b', text))`: one (empty) match per word boundary. -/
def wbCountEmpty : Option Char → List Char → ℕ
  | prev, [] => if boundaryAt prev none then 1 else 0
  | prev, c :: cs => (if boundaryAt prev (some c) then 1 else 0) + wbCountEmpty (some c) cs

/-- `len(re.findall(r'\b' + re.escape(kw) + r'\b', text))`. -/
def wbCount (kw text : List Char) : ℕ :=
  if kw.isEmpty then wbCountEmpty none text else wbCountNE kw none 0 text

/-- Lookahead `(?=\s+[A-Z]|\s*$)` of the sentence-terminator regex, applied
to the text after the punctuation character. -/
def sentenceLookahead (rest : List Char) : Bool :=
  match rest with
  | [] => true
  | c :: cs =>
    if isSpaceChar c then
      match (c :: cs).dropWhile isSpaceChar with
      | [] => true
      | d :: _ => decide ('A' ≤ d) && decide (d ≤ 'Z')
    else false

/-- `len(re.findall(r'[.!?](?=\s+[A-Z]|\s*$)', text))`: each match is a
single punctuation character whose lookahead succeeds. -/
def countSentenceEnds : List Char → ℕ
  | [] => 0
  | c :: cs =>
    (if (c = '.' || c = '!' || c = '?') && sentenceLookahead cs then 1 else 0) +
    countSentenceEnds cs

/-- Substring test: does `pat` occur contiguously in the text? -/
def hasSub (pat : List Char) : List Char → Bool
  | [] => pat.isEmpty
  | c :: cs => pat.isPrefixOf (c :: cs) || hasSub pat cs

/-- Case-insensitive substring test (`"pat" in s.lower()` style): used to
state C8's "matches \"section\" case-insensitively". -/
def containsCI (s pat : List Char) : Bool :=
  hasSub (lowerChars pat) (lowerChars s)

/-- Python `str.title()` (ASCII): a letter is uppercased when the previous
character is not a letter, lowercased otherwise. -/
def pyTitleAux : Bool → List Char → List Char
  | _, [] => []
  | prevAlpha, c :: cs =>
    if c.isAlpha then
      (if prevAlpha then c.toLower else c.toUpper) :: pyTitleAux true cs
    else c :: pyTitleAux false cs

/-- Python `str.title()`. -/
def pyTitle (s : List Char) : List Char := pyTitleAux false s

/-! ## Data model (`app/models/response.py`) -/

/-- `ArticleSection` (Pydantic model). -/
structure ArticleSection where
  heading : List Char
  heading_level : ℤ
  content : List Char
  word_count : ℤ
  deriving DecidableEq, Repr

/-- `ArticleContent` (Pydantic model). -/
structure ArticleContent where
  h1 : List Char
  sections : List ArticleSection
  full_text : List Char
  word_count : ℤ
  deriving DecidableEq, Repr

/-- `SEOMetadata` (Pydantic model). -/
structure SEOMetadata where
  title_tag : List Char
  meta_description : List Char
  focus_keyword : List Char
  deriving DecidableEq, Repr

/-- `KeywordAnalysis` (Pydantic model). -/
structure KeywordAnalysis where
  primary_keyword : List Char
  secondary_keywords : List (List Char)
  keyword_density : ℚ
  deriving DecidableEq, Repr

/-- One section of the outline dict produced by the Outline Generator
(`{"h2": ..., "h3s": ..., "word_count": ..., "key_points": ...}`). -/
structure OutlineSection where
  h2 : List Char
  h3s : List (List Char)
  word_count : ℤ
  key_points : List (List Char)
  deriving DecidableEq, Repr

/-- The outline dict `{"h1": ..., "sections": [...]}`. -/
structure Outline where
  h1 : List Char
  sections : List OutlineSection
  deriving DecidableEq, Repr

/-! ## SEO Metadata Generator — `analyze_keywords`
(`app/agents/seo_metadata_generator.py`, lines 216–266).  Pure arithmetic:
case-insensitive substring count of the primary keyword divided by the
whitespace-token count, times 100, rounded to 2 decimals. -/

/-- `SEOMetadataGenerator.analyze_keywords`. -/
def analyze_keywords (article_content primary_keyword : List Char)
    (secondary_keywords : List (List Char)) : KeywordAnalysis :=
  let content_lower := lowerChars article_content
  let primary_count := countSub content_lower (lowerChars primary_keyword)
  let total_words := (pySplit article_content).length
  let density : ℚ := if 0 < total_words then ((primary_count : ℚ) / (total_words : ℚ)) * 100 else 0
  { primary_keyword := primary_keyword
    secondary_keywords := secondary_keywords
    keyword_density := pyRound2 density }

/-! ## Quality Validator (`app/agents/quality_validator.py`, lines 105–229)

Each criterion `critK` mirrors one numbered block of
`validate_seo_quality`, returning the points it adds to `score` and the
issue strings it appends to `issues` (in source order).  Issue strings are
built exactly as the f-strings in the source, with integers rendered by
`natDigits`/`intChars` and floats by `format1`/`format2`. -/

/-- Issue string of criterion 1. -/
def titleIssue (title_len : ℕ) : List Char :=
  "Title tag should be 40-65 chars (current: ".toList ++ natDigits title_len ++ ")".toList

/-- Criterion 1: title tag length in 40–65 (10 points). -/
def crit1 (metadata : SEOMetadata) : ℤ × List (List Char) :=
  let title_len := metadata.title_tag.length
  if 40 ≤ title_len ∧ title_len ≤ 65 then (10, [])
  else (0, [titleIssue title_len])

/-- Issue string of criterion 2 (partial-credit band). -/
def descNearIssue (desc_len : ℕ) : List Char :=
  "Meta description nearly ideal (current: ".toList ++ natDigits desc_len ++
  " chars, target: 145-165)".toList

/-- Issue string of criterion 2 (failure). -/
def descIssue (desc_len : ℕ) : List Char :=
  "Meta description should be 145-165 chars (current: ".toList ++ natDigits desc_len ++ ")".toList

/-- Criterion 2: meta description length, 145–165 full credit, 140–170
partial credit (10 / 5 / 0 points). -/
def crit2 (metadata : SEOMetadata) : ℤ × List (List Char) :=
  let desc_len := metadata.meta_description.length
  if 145 ≤ desc_len ∧ desc_len ≤ 165 then (10, [])
  else if 140 ≤ desc_len ∧ desc_len ≤ 170 then (5, [descNearIssue desc_len])
  else (0, [descIssue desc_len])

/-- Criterion 3: word-bounded focus keyword found in the lowercased H1
(15 points). -/
def crit3 (article : ArticleContent) (metadata : SEOMetadata) : ℤ × List (List Char) :=
  if wbSearch (lowerChars metadata.focus_keyword) (lowerChars article.h1) then (15, [])
  else (0, ["Primary keyword not found in H1".toList])

/-- The first 100 whitespace tokens of the full text, joined by spaces
(`' '.join(article.full_text.split()[:100])`). -/
def first100 (text : List Char) : List Char := joinSpace ((pySplit text).take 100)

/-- Criterion 4: word-bounded focus keyword in the first 100 words
(15 points). -/
def crit4 (article : ArticleContent) (metadata : SEOMetadata) : ℤ × List (List Char) :=
  if wbSearch (lowerChars metadata.focus_keyword) (lowerChars (first100 article.full_text)) then
    (15, [])
  else (0, ["Primary keyword not in first 100 words".toList])

/-- Issue string of criterion 5. -/
def wordCountIssue (word_diff target actual : ℤ) : List Char :=
  "Word count significantly off target by ".toList ++ intChars word_diff ++
  " words (target: ".toList ++ intChars target ++ ", actual: ".toList ++
  intChars actual ++ ")".toList

/-- Criterion 5: word count within ±30% of target (10 points). -/
def crit5 (article : ArticleContent) (target_word_count : ℤ) : ℤ × List (List Char) :=
  let word_diff := |article.word_count - target_word_count|
  let acceptable_range : ℚ := (target_word_count : ℚ) * (3 / 10)
  if (word_diff : ℚ) ≤ acceptable_range then (10, [])
  else (0, [wordCountIssue word_diff target_word_count article.word_count])

/-- Issue string of criterion 6. -/
def sectionsIssue (n : ℕ) : List Char :=
  "Should have at least 4 H2 sections (has ".toList ++ natDigits n ++ ")".toList

/-- Criterion 6: at least 4 H2 sections (15 points). -/
def crit6 (article : ArticleContent) : ℤ × List (List Char) :=
  if 4 ≤ article.sections.length then (15, [])
  else (0, [sectionsIssue article.sections.length])

/-- The word-bounded keyword occurrence count of criterion 7
(`len(re.findall(keyword_pattern, content_lower))`). -/
def validatorKeywordCount (article : ArticleContent) (metadata : SEOMetadata) : ℕ :=
  wbCount (lowerChars metadata.focus_keyword) (lowerChars article.full_text)

/-- The density of criterion 7, with the division guarded by
`if article.word_count > 0 else 0`. -/
def validatorDensity (article : ArticleContent) (metadata : SEOMetadata) : ℚ :=
  if 0 < article.word_count then
    ((validatorKeywordCount article metadata : ℚ) / (article.word_count : ℚ)) * 100
  else 0

/-- Issue string of criterion 7 (`density_label` is the threshold label). -/
def densityIssue (density_label : List Char) (density : ℚ) : List Char :=
  "Keyword density should be ".toList ++ density_label ++ " (current: ".toList ++
  format2 density ++ "%)".toList

/-- Criterion 7: keyword density within the dynamic threshold (10 points).
Long-tail keywords (5+ whitespace tokens) use 0.1%, short ones 1.0%. -/
def crit7 (article : ArticleContent) (metadata : SEOMetadata) : ℤ × List (List Char) :=
  let density := validatorDensity article metadata
  let keyword_word_count := (pySplit metadata.focus_keyword).length
  let min_density : ℚ := if 5 ≤ keyword_word_count then 1 / 10 else 1
  let density_label := if 5 ≤ keyword_word_count then "0.1-2.5%".toList else "1.0-2.5%".toList
  if min_density ≤ density ∧ density ≤ 5 / 2 then (10, [])
  else (0, [densityIssue density_label density])

/-- Issue string of criterion 8. -/
def sentenceIssue (avg : ℚ) : List Char :=
  "Average sentence length: ".toList ++ format1 avg ++ " words (ideal: 12-20 words)".toList

/-- The sentence count actually used by criterion 8: the regex count, or
`max(1, word_count // 15)` if the regex finds zero sentences. -/
def effectiveSentenceCount (article : ArticleContent) : ℤ :=
  let sentence_count := countSentenceEnds article.full_text
  if sentence_count = 0 then max 1 (Int.fdiv article.word_count 15) else (sentence_count : ℤ)

/-- Criterion 8: average sentence length 12–20 words (15 points). -/
def crit8 (article : ArticleContent) : ℤ × List (List Char) :=
  let sentence_count := effectiveSentenceCount article
  if 0 < sentence_count then
    let avg_words_per_sentence : ℚ := (article.word_count : ℚ) / (sentence_count : ℚ)
    if 12 ≤ avg_words_per_sentence ∧ avg_words_per_sentence ≤ 20 then (15, [])
    else (0, [sentenceIssue avg_words_per_sentence])
  else (0, ["Could not calculate sentence length".toList])

/-- The dict returned by `validate_seo_quality`. -/
structure ValidationResult where
  score : ℤ
  max_score : ℤ
  percentage : ℚ
  issues : List (List Char)
  passed : Bool
  deriving DecidableEq, Repr

/-- `QualityValidator.validate_seo_quality`: runs the eight criteria in
order, accumulating `score` (starting from 0) and `issues` (appended in
criterion order), then `percentage = round(score / max_score * 100, 1)` and
`passed = score >= 70`. -/
def validate_seo_quality (article : ArticleContent) (metadata : SEOMetadata)
    (target_word_count : ℤ) : ValidationResult :=
  let c1 := crit1 metadata
  let c2 := crit2 metadata
  let c3 := crit3 article metadata
  let c4 := crit4 article metadata
  let c5 := crit5 article target_word_count
  let c6 := crit6 article
  let c7 := crit7 article metadata
  let c8 := crit8 article
  let score := c1.1 + c2.1 + c3.1 + c4.1 + c5.1 + c6.1 + c7.1 + c8.1
  let max_score : ℤ := 100
  { score := score
    max_score := max_score
    percentage := pyRound1 ((score : ℚ) / (max_score : ℚ) * 100)
    issues := c1.2 ++ c2.2 ++ c3.2 ++ c4.2 ++ c5.2 ++ c6.2 ++ c7.2 ++ c8.2
    passed := decide (70 ≤ score) }

/-! ## Content Generator (`app/agents/content_generator.py`)

`_parse_article_into_sections` splits the markdown on the `re.MULTILINE`
regex `^## (.+?)$`.  That regex matches exactly the lines that start with
`"## "` and contain at least one further character (`.` cannot match the
line's terminating newline, and `.+?` needs one character; `$` then forces
the capture to extend to the end of the line).  A section's content is the
slice from the end of its heading line to the start of the next matched
heading line (or the end of the text), stripped — equivalently, the
in-between lines joined with newlines and stripped, which is how the model
below computes it over the `splitLines` view. -/

/-- Does a line match `^## (.+?)$`? -/
def isH2Line (l : List Char) : Bool := "## ".toList.isPrefixOf l && 4 ≤ l.length

/-- Build one `ArticleSection` from a matched heading line's capture
(`match.group(1)`, i.e. the line minus `"## "`) and the body lines up to the
next matched heading. -/
def mkParsedSection (capture : List Char) (body : List (List Char)) : ArticleSection :=
  let section_content := pyStrip (joinLines body)
  { heading := pyStrip capture
    heading_level := 2
    content := section_content
    word_count := ((pySplit section_content).length : ℤ) }

/-- Scan of the line list: `none` while before the first matched heading
(that prefix is not part of any section), `some (capture, rbody)` while
collecting the current section's body lines (in reverse). -/
def parseLinesAux : List (List Char) → Option (List Char × List (List Char)) → List ArticleSection
  | [], none => []
  | [], some (capture, rbody) => [mkParsedSection capture rbody.reverse]
  | l :: ls, none =>
    if isH2Line l then parseLinesAux ls (some (l.drop 3, [])) else parseLinesAux ls none
  | l :: ls, some (capture, rbody) =>
    if isH2Line l then
      mkParsedSection capture rbody.reverse :: parseLinesAux ls (some (l.drop 3, []))
    else parseLinesAux ls (some (capture, l :: rbody))

/-- The fixed placeholder produced when no H2 heading is found. -/
def placeholderSection (s : OutlineSection) : ArticleSection :=
  { heading := s.h2
    heading_level := 2
    content := "Content parsing failed - article generated but structure unclear.".toList
    word_count := 0 }

/-- `ContentGenerator._parse_article_into_sections` (lines 253–309). -/
def parse_article_into_sections (full_article : List Char)
    (sections_data : List OutlineSection) : List ArticleSection :=
  let parsed_sections := parseLinesAux (splitLines full_article) none
  if parsed_sections.isEmpty ∧ ¬ sections_data.isEmpty then
    sections_data.map placeholderSection
  else parsed_sections

/-- The error message of the one-shot length check
(`ValueError(f"Generated article too short: {len(full_article)} chars")`). -/
def tooShortMsg (n : ℕ) : List Char :=
  "Generated article too short: ".toList ++ natDigits n ++ " chars".toList

/-- The expected H1 heading line `f"# {h1}"`. -/
def h1Heading (h1 : List Char) : List Char := "# ".toList ++ h1

/-- The validation/normalisation tail of
`ContentGenerator._generate_full_article_oneshot` (lines 239–247), applied
to the text returned by the model call:

* if the text is falsy (empty) or its stripped form is shorter than 500
  characters, a `ValueError` is raised (modelled as `Except.error`);
* if the stripped text does not start with `# {h1}`, the H1 line is
  prepended (`f"# {h1}\n\n{full_article}"`);
* the (possibly prefixed) text is returned stripped. -/
def oneshotValidate (h1 full_article : List Char) : Except (List Char) (List Char) :=
  if full_article.isEmpty ∨ (pyStrip full_article).length < 500 then
    Except.error (tooShortMsg full_article.length)
  else
    let full_article :=
      if (h1Heading h1).isPrefixOf (pyStrip full_article) then full_article
      else h1Heading h1 ++ "\n\n".toList ++ full_article
    Except.ok (pyStrip full_article)

/-- The `try`/`except` routing of `ContentGenerator.generate_article`
(lines 107–135): the one-shot result is used when it succeeds; any
exception from the one-shot path selects the section-by-section fallback
article instead.  The one-shot outcome and the fallback article are
parameters (they come from model calls). -/
def generate_article_route (oneshot : Except (List Char) ArticleContent)
    (fallback : ArticleContent) : ArticleContent :=
  match oneshot with
  | Except.ok article => article
  | Except.error _ => fallback

/-! ## Outline Generator (`app/agents/outline_generator.py`, lines 130–191) -/

/-- The fixed fallback outline returned when the model call raises,
parameterised only by the topic (lines 157–191). -/
def fallbackOutline (topic : List Char) : Outline :=
  { h1 := "The Complete Guide to ".toList ++ pyTitle topic
    sections := [
      { h2 := "Introduction".toList
        h3s := []
        word_count := 200
        key_points := ["Define ".toList ++ topic, "Explain importance".toList,
                       "Overview of article".toList] },
      { h2 := "Understanding ".toList ++ pyTitle topic
        h3s := ["Key Concepts".toList, "Common Terminology".toList]
        word_count := 300
        key_points := ["Explain fundamentals".toList, "Provide context".toList,
                       "Share examples".toList] },
      { h2 := "Benefits of ".toList ++ pyTitle topic
        h3s := []
        word_count := 250
        key_points := ["List main benefits".toList, "Provide evidence".toList,
                       "Share statistics".toList] },
      { h2 := "Best Practices for ".toList ++ pyTitle topic
        h3s := ["Getting Started".toList, "Advanced Tips".toList]
        word_count := 400
        key_points := ["Step-by-step guidance".toList, "Expert recommendations".toList,
                       "Common pitfalls".toList] },
      { h2 := "Conclusion".toList
        h3s := []
        word_count := 150
        key_points := ["Summarize key takeaways".toList, "Encourage action".toList,
                       "Future outlook".toList] }] }

/-- `OutlineGenerator.generate_outline`: the model call's outcome is a
parameter (`some outline` on success, `none` when `generate_json` raises);
on failure the fixed fallback outline is returned.  The requested
`target_word_count` only appears in the prompt — the fallback ignores it. -/
def generate_outline (llm_outline : Option Outline) (topic : List Char)
    (target_word_count : ℤ) : Outline :=
  match llm_outline with
  | some outline => outline
  | none => fallbackOutline topic

/-! ## Orchestrator (`app/agents/orchestrator.py`)

The job record is the relevant slice of the `ArticleJob` row; the pipeline
body is modelled as the sequential composition of its steps' outcomes
(`runSteps` returns the first uncaught exception, which aborts the rest),
and `generate` mirrors the `try`/`except` of lines 132–255: on success
`_save_result` (status `COMPLETED`, `result`, `completed_at`), on failure
`_save_error` (status `FAILED`, `error` prefixed with `"Generation failed: "`,
`completed_at`) followed by `raise` (the error is also returned). -/

/-- `JobStatusEnum`. -/
inductive JobStatusEnum where
  | PENDING | RUNNING | COMPLETED | FAILED
  deriving DecidableEq, Repr

/-- The serialized `ArticleOutput` is left abstract (an opaque payload);
only whether/what is written matters to the claims. -/
structure JobRecord (α : Type) where
  status : JobStatusEnum
  result : Option α
  error : Option (List Char)
  completed_at : Option ℕ
  deriving Repr

/-- Sequential pipeline: run each step in order, aborting at the first
exception (later steps never run, their effects never happen). -/
def runSteps : List (Except (List Char) Unit) → Except (List Char) Unit
  | [] => Except.ok ()
  | step :: rest =>
    match step with
    | Except.error e => Except.error e
    | Except.ok _ => runSteps rest

/-- `ArticleGenerationOrchestrator.generate`, as a function of the job
record, the step outcomes, the assembled output (step 10) and the current
time: returns the updated job record and the propagated result. -/
def orchestrator_generate {α : Type} (job : JobRecord α)
    (steps : List (Except (List Char) Unit)) (output : α) (now : ℕ) :
    JobRecord α × Except (List Char) α :=
  match runSteps steps with
  | Except.ok _ =>
    ({ job with status := JobStatusEnum.COMPLETED, result := some output,
                completed_at := some now },
     Except.ok output)
  | Except.error e =>
    ({ job with status := JobStatusEnum.FAILED,
                error := some ("Generation failed: ".toList ++ e),
                completed_at := some now },
     Except.error e)

/-! ## Helper lemmas: rounding -/

/-- `ratFloor` agrees with the integer on integer inputs. -/
theorem ratFloor_intCast (m : ℤ) : ratFloor (m : ℚ) = m := by
  simp [ratFloor, Rat.num_intCast, Rat.den_intCast]

/-- Rounding an integer-valued rational is the identity. -/
theorem roundHalfEven_intCast (m : ℤ) : roundHalfEven (m : ℚ) = m := by
  simp only [roundHalfEven, ratFloor_intCast]
  norm_num

/-- `round(q, 1)` of an integer-valued rational is the identity. -/
theorem pyRound1_intCast (m : ℤ) : pyRound1 (m : ℚ) = (m : ℚ) := by
  have h : (m : ℚ) * 10 = ((m * 10 : ℤ) : ℚ) := by push_cast; ring
  rw [pyRound1, h, roundHalfEven_intCast]
  push_cast
  ring_nf

/-- `round(q, 2)` of an integer-valued rational is the identity. -/
theorem pyRound2_intCast (m : ℤ) : pyRound2 (m : ℚ) = (m : ℚ) := by
  have h : (m : ℚ) * 100 = ((m * 100 : ℤ) : ℚ) := by push_cast; ring
  rw [pyRound2, h, roundHalfEven_intCast]
  push_cast
  ring_nf

/-! ## Helper lemmas: per-criterion point ranges -/

theorem crit1_points (m : SEOMetadata) : (crit1 m).1 = 0 ∨ (crit1 m).1 = 10 := by
  simp only [crit1]
  split <;> simp

theorem crit2_points (m : SEOMetadata) :
    (crit2 m).1 = 0 ∨ (crit2 m).1 = 5 ∨ (crit2 m).1 = 10 := by
  simp only [crit2]
  split
  · simp
  · split <;> simp

theorem crit3_points (a : ArticleContent) (m : SEOMetadata) :
    (crit3 a m).1 = 0 ∨ (crit3 a m).1 = 15 := by
  simp only [crit3]
  split <;> simp

theorem crit4_points (a : ArticleContent) (m : SEOMetadata) :
    (crit4 a m).1 = 0 ∨ (crit4 a m).1 = 15 := by
  simp only [crit4]
  split <;> simp

theorem crit5_points (a : ArticleContent) (t : ℤ) :
    (crit5 a t).1 = 0 ∨ (crit5 a t).1 = 10 := by
  simp only [crit5]
  split <;> simp

theorem crit6_points (a : ArticleContent) : (crit6 a).1 = 0 ∨ (crit6 a).1 = 15 := by
  simp only [crit6]
  split <;> simp

theorem crit7_points (a : ArticleContent) (m : SEOMetadata) :
    (crit7 a m).1 = 0 ∨ (crit7 a m).1 = 10 := by
  simp only [crit7]
  split <;> split <;> simp

theorem crit8_points (a : ArticleContent) : (crit8 a).1 = 0 ∨ (crit8 a).1 = 15 := by
  simp only [crit8]
  split
  · split <;> simp
  · simp

/-- The validator's score is by construction the left-to-right sum of the
eight criteria's points. -/
theorem validate_score_eq (a : ArticleContent) (m : SEOMetadata) (t : ℤ) :
    (validate_seo_quality a m t).score =
      (crit1 m).1 + (crit2 m).1 + (crit3 a m).1 + (crit4 a m).1 +
      (crit5 a t).1 + (crit6 a).1 + (crit7 a m).1 + (crit8 a).1 := rfl

/-- C1, score bounds: every criterion contributes a nonnegative amount and
the total is at most 100. -/
theorem validate_score_bounds (a : ArticleContent) (m : SEOMetadata) (t : ℤ) :
    0 ≤ (validate_seo_quality a m t).score ∧ (validate_seo_quality a m t).score ≤ 100 := by
  rw [validate_score_eq]
  rcases crit1_points m with h1 | h1 <;>
  rcases crit2_points m with h2 | h2 | h2 <;>
  rcases crit3_points a m with h3 | h3 <;>
  rcases crit4_points a m with h4 | h4 <;>
  rcases crit5_points a t with h5 | h5 <;>
  rcases crit6_points a with h6 | h6 <;>
  rcases crit7_points a m with h7 | h7 <;>
  rcases crit8_points a with h8 | h8 <;>
  rw [h1, h2, h3, h4, h5, h6, h7, h8] <;> norm_num

/-- `score / max_score * 100` rounded to one decimal is the score itself. -/
theorem pyRound1_div100_mul100 (s : ℤ) :
    pyRound1 ((s : ℚ) / ((100 : ℤ) : ℚ) * 100) = (s : ℚ) := by
  have h : (s : ℚ) / ((100 : ℤ) : ℚ) * 100 = (s : ℚ) := by push_cast; field_simp
  rw [h, pyRound1_intCast]

/-- **C1.** `validate_seo_quality` is a pure function of its three
arguments (it is a Lean function, so determinism is by construction); its
score is exactly the left-to-right sum of the eight criteria's earned
points, each of which is nonnegative; the score lies in `[0, 100]`; the
`passed` flag is exactly `score ≥ 70`; and `percentage =
round(score / max_score * 100, 1)` collapses to the score itself (as an
exact rational, modelling the float). -/
theorem C1_validate_seo_quality_structure (a : ArticleContent) (m : SEOMetadata) (t : ℤ) :
    (validate_seo_quality a m t).score =
      (crit1 m).1 + (crit2 m).1 + (crit3 a m).1 + (crit4 a m).1 +
      (crit5 a t).1 + (crit6 a).1 + (crit7 a m).1 + (crit8 a).1 ∧
    (0 ≤ (crit1 m).1 ∧ 0 ≤ (crit2 m).1 ∧ 0 ≤ (crit3 a m).1 ∧ 0 ≤ (crit4 a m).1 ∧
     0 ≤ (crit5 a t).1 ∧ 0 ≤ (crit6 a).1 ∧ 0 ≤ (crit7 a m).1 ∧ 0 ≤ (crit8 a).1) ∧
    (0 ≤ (validate_seo_quality a m t).score ∧ (validate_seo_quality a m t).score ≤ 100) ∧
    ((validate_seo_quality a m t).passed = true ↔ 70 ≤ (validate_seo_quality a m t).score) ∧
    (validate_seo_quality a m t).max_score = 100 ∧
    (validate_seo_quality a m t).percentage = ((validate_seo_quality a m t).score : ℚ) := by
  refine ⟨rfl, ⟨?_, ?_, ?_, ?_, ?_, ?_, ?_, ?_⟩, validate_score_bounds a m t, ?_, rfl, ?_⟩
  · rcases crit1_points m with h | h <;> omega
  · rcases crit2_points m with h | h | h <;> omega
  · rcases crit3_points a m with h | h <;> omega
  · rcases crit4_points a m with h | h <;> omega
  · rcases crit5_points a t with h | h <;> omega
  · rcases crit6_points a with h | h <;> omega
  · rcases crit7_points a m with h | h <;> omega
  · rcases crit8_points a with h | h <;> omega
  · simp only [validate_seo_quality]
    exact decide_eq_true_iff
  · simp only [validate_seo_quality]
    exact pyRound1_div100_mul100 _

/-- **C9.** A title tag of length exactly 40 or exactly 65 earns the 10
points of criterion 1 (and no issue); a title tag of length 39 or 66 earns
0 points for criterion 1 and appends the title-length issue, which then
appears in the validator's issue list. -/
theorem C9_title_length_boundaries (a : ArticleContent) (m : SEOMetadata) (t : ℤ) :
    ((m.title_tag.length = 40 ∨ m.title_tag.length = 65) → crit1 m = (10, [])) ∧
    ((m.title_tag.length = 39 ∨ m.title_tag.length = 66) →
      crit1 m = (0, [titleIssue m.title_tag.length]) ∧
      titleIssue m.title_tag.length ∈ (validate_seo_quality a m t).issues) := by
  constructor
  · intro h
    rcases h with h | h <;> simp [crit1, h]
  · intro h
    have hc : crit1 m = (0, [titleIssue m.title_tag.length]) := by
      rcases h with h | h <;> simp [crit1, h]
    refine ⟨hc, ?_⟩
    simp only [validate_seo_quality, List.mem_append]
    left; left; left; left; left; left; left
    rw [hc]
    simp

/-- Witness for C9 at concrete titles of length 40 and 39. -/
theorem C9_title_length_boundaries_witness :
    crit1 ⟨List.replicate 40 'x', [], []⟩ = (10, []) ∧
    (crit1 ⟨List.replicate 39 'x', [], []⟩ =
      (0, [titleIssue (SEOMetadata.title_tag ⟨List.replicate 39 'x', [], []⟩).length]) ∧
     titleIssue (SEOMetadata.title_tag ⟨List.replicate 39 'x', [], []⟩).length ∈
       (validate_seo_quality ⟨[], [], [], 0⟩ ⟨List.replicate 39 'x', [], []⟩ 1000).issues) :=
  ⟨(C9_title_length_boundaries ⟨[], [], [], 0⟩ ⟨List.replicate 40 'x', [], []⟩ 1000).1
      (by decide),
   (C9_title_length_boundaries ⟨[], [], [], 0⟩ ⟨List.replicate 39 'x', [], []⟩ 1000).2
      (by decide)⟩

/-- **C10.** Both density computations are total on degenerate input: with
`word_count = 0` the validator's criterion-7 density takes the guarded
`else 0` branch; the readability criterion's effective sentence count is
`max(1, word_count // 15)` whenever the sentence regex finds zero
sentences, and is positive for every input (so the average-words-per-
sentence division never divides by zero); and `analyze_keywords` returns
density 0 when the article has zero whitespace tokens.  All the embedded
functions are total Lean functions, so no division-by-zero error branch is
reachable. -/
theorem C10_density_totality (a : ArticleContent) (m : SEOMetadata)
    (content kw : List Char) (sk : List (List Char)) :
    (a.word_count = 0 → validatorDensity a m = 0) ∧
    (countSentenceEnds a.full_text = 0 →
      effectiveSentenceCount a = max 1 (Int.fdiv a.word_count 15)) ∧
    0 < effectiveSentenceCount a ∧
    ((pySplit content).length = 0 → (analyze_keywords content kw sk).keyword_density = 0) := by
  refine ⟨?_, ?_, ?_, ?_⟩
  · intro h
    simp [validatorDensity, h]
  · intro h
    simp [effectiveSentenceCount, h]
  · simp only [effectiveSentenceCount]
    split
    · exact lt_of_lt_of_le zero_lt_one (le_max_left _ _)
    · rename_i h
      exact_mod_cast Nat.pos_of_ne_zero h
  · intro h
    simp only [analyze_keywords, h]
    norm_num
    simpa using pyRound2_intCast 0

/-- Witness for C10: an article with `word_count = 0` and empty text, and
an all-whitespace keyword-analysis input. -/
theorem C10_density_totality_witness :
    validatorDensity ⟨[], [], [], 0⟩ ⟨[], [], []⟩ = 0 ∧
    effectiveSentenceCount ⟨[], [], [], 0⟩ = max 1 (Int.fdiv 0 15) ∧
    0 < effectiveSentenceCount ⟨[], [], [], 0⟩ ∧
    (analyze_keywords "   ".toList "x".toList []).keyword_density = 0 := by
  have h := C10_density_totality ⟨[], [], [], 0⟩ ⟨[], [], []⟩ "   ".toList "x".toList []
  exact ⟨h.1 (by decide), h.2.1 (by decide), h.2.2.1, h.2.2.2 (by decide)⟩

/-! ## Helper lemmas: substring occurrence and separation

The amended C8-style reasoning needs: "section" cannot occur in an issue
string built from letter-free digit blocks spliced between constant chunks
that do not contain it.  `hasSub_spec` characterises the executable
substring test; `infix_split_away` is the separation lemma. -/

/-- `hasSub` decides substring occurrence. -/
theorem hasSub_spec (pat text : List Char) : hasSub pat text = true ↔ pat <:+: text := by
  induction text with
  | nil =>
    simp only [hasSub, List.isEmpty_iff]
    constructor
    · rintro rfl
      exact ⟨[], [], rfl⟩
    · rintro ⟨s, t, h⟩
      have h2 := h
      simp only [List.append_eq_nil] at h2
      exact h2.1.2
  | cons c cs ih =>
    simp only [hasSub, Bool.or_eq_true, ih, List.isPrefixOf_iff_prefix]
    constructor
    · rintro (⟨t, ht⟩ | ⟨s, t, ht⟩)
      · exact ⟨[], t, by simpa using ht⟩
      · exact ⟨c :: s, t, by simp [ht]⟩
    · rintro ⟨s, t, ht⟩
      cases s with
      | nil => exact Or.inl ⟨t, by simpa using ht⟩
      | cons a as =>
        right
        refine ⟨as, t, ?_⟩
        have := ht.symm
        simp only [List.cons_append] at this
        exact (List.cons.injEq _ _ _ _ ▸ this).2.symm

/-- Contrapositive form used on concrete chunks. -/
theorem not_infix_of_hasSub_false {p s : List Char} (h : hasSub p s = false) :
    ¬ p <:+: s := fun hc => by
  rw [(hasSub_spec p s).mpr hc] at h
  exact Bool.true_eq_false.mp h

/-- Separation: an occurrence of `p` in `u ++ v ++ w` that cannot touch any
character of the (nonempty) middle block `v` lies entirely inside `u` or
entirely inside `w`. -/
theorem infix_split_away {p u v w : List Char} (hv : v ≠ [])
    (hdisj : ∀ c ∈ p, c ∉ v) (h : p <:+: u ++ v ++ w) :
    p <:+: u ∨ p <:+: w := by
  by_cases hp : p = []
  · exact Or.inl ⟨[], u, by simp [hp]⟩
  obtain ⟨s, t, hst⟩ := h
  by_cases hcase1 : s.length + p.length ≤ u.length
  · left
    have h1 : s ++ p <+: u ++ (v ++ w) := ⟨t, by simpa [List.append_assoc] using hst⟩
    have h2 : u <+: u ++ (v ++ w) := ⟨v ++ w, rfl⟩
    have h3 : s ++ p <+: u :=
      List.prefix_of_prefix_length_le h1 h2 (by simpa using hcase1)
    obtain ⟨r, hr⟩ := h3
    exact ⟨s, r, by rw [← hr, List.append_assoc]⟩
  by_cases hcase2 : u.length + v.length ≤ s.length
  · right
    have h1 : u ++ v <+: u ++ (v ++ w) := ⟨w, by simp⟩
    have h2 : s <+: u ++ (v ++ w) := ⟨p ++ t, by simpa [List.append_assoc] using hst⟩
    have h3 : u ++ v <+: s :=
      List.prefix_of_prefix_length_le h1 h2 (by simpa using hcase2)
    obtain ⟨r, hr⟩ := h3
    rw [← hr] at hst
    have h4 : (u ++ v) ++ (r ++ (p ++ t)) = (u ++ v) ++ w := by
      simpa [List.append_assoc] using hst
    have h5 := List.append_cancel_left h4
    exact ⟨r, t, by rw [← h5, List.append_assoc]⟩
  · exfalso
    -- the occurrence overlaps `v`: the character at index `max |s| |u|` is
    -- in both `p` and `v`.
    push_neg at hcase1 hcase2
    set j := max s.length u.length with hj
    have hjs : s.length ≤ j := le_max_left _ _
    have hju : u.length ≤ j := le_max_right _ _
    have hjp : j - s.length < p.length := by
      have hp1 : 1 ≤ p.length := by
        cases p with
        | nil => exact absurd rfl hp
        | cons a as => simp
      rcases max_cases s.length u.length with ⟨h1, _⟩ | ⟨h1, _⟩ <;> omega
    have hjv : j - u.length < v.length := by
      have hv1 : 1 ≤ v.length := by
        cases v with
        | nil => exact absurd rfl hv
        | cons a as => simp
      rcases max_cases s.length u.length with ⟨h1, _⟩ | ⟨h1, _⟩ <;> omega
    have e1 : (s ++ (p ++ t))[j]? = p[j - s.length]? := by
      rw [List.getElem?_append_right hjs, List.getElem?_append_left hjp]
    have e2 : (u ++ (v ++ w))[j]? = v[j - u.length]? := by
      rw [List.getElem?_append_right hju, List.getElem?_append_left hjv]
    have hx : (s ++ (p ++ t)) = (u ++ (v ++ w)) := by
      rw [← List.append_assoc, ← List.append_assoc]
      exact hst
    rw [hx, e2] at e1
    rcases h4 : p[j - s.length]? with _ | a
    · rw [List.getElem?_eq_none_iff] at h4
      omega
    · have hav : v[j - u.length]? = some a := by rw [e1, h4]
      exact hdisj a (List.getElem?_mem h4) (List.getElem?_mem hav)

/-- An occurrence extends to the right of an append. -/
theorem occurs_append_right {p u : List Char} (w : List Char) (h : p <:+: u) :
    p <:+: u ++ w := by
  obtain ⟨s, t, hst⟩ := h
  exact ⟨s, t ++ w, by rw [← hst]; simp [List.append_assoc]⟩

/-! ## Helper lemmas: character classes of rendered numbers -/

/-- `digitChar d` for `d < 10` is an ASCII digit (code 48–57). -/
theorem digitChar_toNat {d : ℕ} (h : d < 10) :
    48 ≤ (digitChar d).toNat ∧ (digitChar d).toNat ≤ 57 := by
  interval_cases d <;> decide

/-- All characters of `natDigitsAux` are ASCII digits. -/
theorem natDigitsAux_chars :
    ∀ fuel n : ℕ, ∀ c ∈ natDigitsAux fuel n, 48 ≤ c.toNat ∧ c.toNat ≤ 57 := by
  intro fuel
  induction fuel with
  | zero => intro n c hc; simp [natDigitsAux] at hc
  | succ f ih =>
    intro n c hc
    simp only [natDigitsAux] at hc
    split at hc
    · rename_i hn
      simp only [List.mem_singleton] at hc
      subst hc
      exact digitChar_toNat hn
    · rcases List.mem_append.mp hc with h | h
      · exact ih _ c h
      · simp only [List.mem_singleton] at h
        subst h
        exact digitChar_toNat (Nat.mod_lt _ (by norm_num))

/-- All characters of `natDigits n` are ASCII digits. -/
theorem natDigits_chars {n : ℕ} {c : Char} (hc : c ∈ natDigits n) :
    48 ≤ c.toNat ∧ c.toNat ≤ 57 := natDigitsAux_chars _ _ c hc

/-- `natDigits` is never empty. -/
theorem natDigits_ne_nil (n : ℕ) : natDigits n ≠ [] := by
  intro h
  rw [natDigits] at h
  simp only [natDigitsAux] at h
  split at h <;> simp at h

/-- All characters of `intChars z` have code at most 57 (digits or `'-'`). -/
theorem intChars_chars {z : ℤ} {c : Char} (hc : c ∈ intChars z) : c.toNat ≤ 57 := by
  rw [intChars] at hc
  split at hc
  · rcases List.mem_cons.mp hc with h | h
    · subst h; decide
    · exact (natDigits_chars h).2
  · exact (natDigits_chars hc).2

/-- `intChars` is never empty. -/
theorem intChars_ne_nil (z : ℤ) : intChars z ≠ [] := by
  rw [intChars]
  split
  · simp
  · exact natDigits_ne_nil _

/-- All characters of `format2 q` have code at most 57. -/
theorem format2_chars {q : ℚ} {c : Char} (hc : c ∈ format2 q) : c.toNat ≤ 57 := by
  simp only [format2, natDigitsPad, List.mem_append] at hc
  rcases hc with ((h | h) | h) | h | h
  · split at h
    · simp only [List.mem_singleton] at h; subst h; decide
    · simp at h
  · exact (natDigits_chars h).2
  · simp only [List.mem_singleton] at h; subst h; decide
  · have := List.eq_of_mem_replicate h; subst this; decide
  · exact (natDigits_chars h).2

/-- `format2` is never empty. -/
theorem format2_ne_nil (q : ℚ) : format2 q ≠ [] := by
  intro h
  simp only [format2, List.append_eq_nil] at h
  exact absurd h.1.1.2 (natDigits_ne_nil _)

/-- All characters of `format1 q` have code at most 57. -/
theorem format1_chars {q : ℚ} {c : Char} (hc : c ∈ format1 q) : c.toNat ≤ 57 := by
  simp only [format1, natDigitsPad, List.mem_append] at hc
  rcases hc with ((h | h) | h) | h | h
  · split at h
    · simp only [List.mem_singleton] at h; subst h; decide
    · simp at h
  · exact (natDigits_chars h).2
  · simp only [List.mem_singleton] at h; subst h; decide
  · have := List.eq_of_mem_replicate h; subst this; decide
  · exact (natDigits_chars h).2

/-- `format1` is never empty. -/
theorem format1_ne_nil (q : ℚ) : format1 q ≠ [] := by
  intro h
  simp only [format1, List.append_eq_nil] at h
  exact absurd h.1.1.2 (natDigits_ne_nil _)

/-- `toLower` fixes characters with code at most 57 (digits, punctuation). -/
theorem toLower_of_le_57 {c : Char} (h : c.toNat ≤ 57) : c.toLower = c := by
  rw [Char.toLower, if_neg]
  intro hcon
  omega

/-! ## "section" cannot occur in the other issue strings -/

/-- The C8 search pattern. -/
def sectionPat : List Char := "section".toList

/-- Lowercasing fixes the pattern. -/
theorem lower_sectionPat : lowerChars sectionPat = sectionPat := by decide

/-- Bridge from the separation reasoning to the executable `containsCI`. -/
theorem containsCI_section_eq_false {s : List Char}
    (h : ¬ sectionPat <:+: lowerChars s) : containsCI s sectionPat = false := by
  rw [containsCI, lower_sectionPat]
  rcases Bool.eq_false_or_eq_true (hasSub sectionPat (lowerChars s)) with h2 | h2
  · exact absurd ((hasSub_spec _ _).mp h2) h
  · exact h2

/-- Splicing a nonempty letter-free block (character codes at most 57)
between two "section"-free strings keeps the result "section"-free. -/
theorem noSection_splice {u mid w : List Char} (hmid : mid ≠ [])
    (hnum : ∀ c ∈ mid, c.toNat ≤ 57)
    (hu : ¬ sectionPat <:+: lowerChars u)
    (hw : ¬ sectionPat <:+: lowerChars w) :
    ¬ sectionPat <:+: lowerChars (u ++ mid ++ w) := by
  intro hcon
  rw [lowerChars, List.map_append, List.map_append] at hcon
  have hmid2 : (mid.map Char.toLower) ≠ [] := by
    simpa using hmid
  have hdisj : ∀ c ∈ sectionPat, c ∉ mid.map Char.toLower := by
    intro c hc hmem
    obtain ⟨d, hd, hde⟩ := List.mem_map.mp hmem
    have h57 : d.toLower.toNat ≤ 57 := by
      rw [toLower_of_le_57 (hnum d hd)]
      exact hnum d hd
    rw [hde] at h57
    have : 99 ≤ c.toNat := by
      rw [sectionPat] at hc
      fin_cases hc <;> decide
    omega
  rcases infix_split_away hmid2 hdisj hcon with h | h
  · exact hu h
  · exact hw h

/-- Helper: decide "section"-freeness of a constant chunk. -/
theorem noSection_const {s : List Char} (h : hasSub sectionPat (lowerChars s) = false) :
    ¬ sectionPat <:+: lowerChars s := not_infix_of_hasSub_false h

theorem titleIssue_no_section (n : ℕ) : ¬ sectionPat <:+: lowerChars (titleIssue n) :=
  noSection_splice (natDigits_ne_nil n) (fun c hc => (natDigits_chars hc).2)
    (noSection_const (by decide)) (noSection_const (by decide))

theorem descNearIssue_no_section (n : ℕ) : ¬ sectionPat <:+: lowerChars (descNearIssue n) :=
  noSection_splice (natDigits_ne_nil n) (fun c hc => (natDigits_chars hc).2)
    (noSection_const (by decide)) (noSection_const (by decide))

theorem descIssue_no_section (n : ℕ) : ¬ sectionPat <:+: lowerChars (descIssue n) :=
  noSection_splice (natDigits_ne_nil n) (fun c hc => (natDigits_chars hc).2)
    (noSection_const (by decide)) (noSection_const (by decide))

theorem wordCountIssue_no_section (d t w : ℤ) :
    ¬ sectionPat <:+: lowerChars (wordCountIssue d t w) := by
  rw [wordCountIssue]
  have h3 : ¬ sectionPat <:+:
      lowerChars ("Word count significantly off target by ".toList ++ intChars d ++
        " words (target: ".toList) :=
    noSection_splice (intChars_ne_nil d) (fun c hc => intChars_chars hc)
      (noSection_const (by decide)) (noSection_const (by decide))
  have h5 : ¬ sectionPat <:+:
      lowerChars (("Word count significantly off target by ".toList ++ intChars d ++
        " words (target: ".toList) ++ intChars t ++ ", actual: ".toList) :=
    noSection_splice (intChars_ne_nil t) (fun c hc => intChars_chars hc)
      h3 (noSection_const (by decide))
  exact noSection_splice (intChars_ne_nil w) (fun c hc => intChars_chars hc)
    h5 (noSection_const (by decide))

theorem densityIssue_no_section (label : List Char) (q : ℚ) (hl : label ≠ [])
    (hlc : ∀ c ∈ label, c.toNat ≤ 57) :
    ¬ sectionPat <:+: lowerChars (densityIssue label q) := by
  rw [densityIssue]
  have h2 : ¬ sectionPat <:+:
      lowerChars ("Keyword density should be ".toList ++ label ++ " (current: ".toList) :=
    noSection_splice hl hlc (noSection_const (by decide)) (noSection_const (by decide))
  exact noSection_splice (format2_ne_nil q) (fun c hc => format2_chars hc)
    h2 (noSection_const (by decide))

theorem sentenceIssue_no_section (q : ℚ) : ¬ sectionPat <:+: lowerChars (sentenceIssue q) :=
  noSection_splice (format1_ne_nil q) (fun c hc => format1_chars hc)
    (noSection_const (by decide)) (noSection_const (by decide))

/-- The section predicate used in C8. -/
def mentionsSection (s : List Char) : Bool := containsCI s sectionPat

theorem crit1_section_free (m : SEOMetadata) :
    ∀ s ∈ (crit1 m).2, mentionsSection s = false := by
  intro s hs
  simp only [crit1] at hs
  split at hs
  · simp at hs
  · simp only [List.mem_singleton] at hs
    subst hs
    exact containsCI_section_eq_false (titleIssue_no_section _)

theorem crit2_section_free (m : SEOMetadata) :
    ∀ s ∈ (crit2 m).2, mentionsSection s = false := by
  intro s hs
  simp only [crit2] at hs
  split at hs
  · simp at hs
  · split at hs <;> simp only [List.mem_singleton] at hs <;> subst hs
    · exact containsCI_section_eq_false (descNearIssue_no_section _)
    · exact containsCI_section_eq_false (descIssue_no_section _)

theorem crit3_section_free (a : ArticleContent) (m : SEOMetadata) :
    ∀ s ∈ (crit3 a m).2, mentionsSection s = false := by
  intro s hs
  simp only [crit3] at hs
  split at hs
  · simp at hs
  · simp only [List.mem_singleton] at hs
    subst hs
    exact containsCI_section_eq_false (noSection_const (by decide))

theorem crit4_section_free (a : ArticleContent) (m : SEOMetadata) :
    ∀ s ∈ (crit4 a m).2, mentionsSection s = false := by
  intro s hs
  simp only [crit4] at hs
  split at hs
  · simp at hs
  · simp only [List.mem_singleton] at hs
    subst hs
    exact containsCI_section_eq_false (noSection_const (by decide))

theorem crit5_section_free (a : ArticleContent) (t : ℤ) :
    ∀ s ∈ (crit5 a t).2, mentionsSection s = false := by
  intro s hs
  simp only [crit5] at hs
  split at hs
  · simp at hs
  · simp only [List.mem_singleton] at hs
    subst hs
    exact containsCI_section_eq_false (wordCountIssue_no_section _ _ _)

theorem crit7_section_free (a : ArticleContent) (m : SEOMetadata) :
    ∀ s ∈ (crit7 a m).2, mentionsSection s = false := by
  intro s hs
  simp only [crit7] at hs
  split at hs <;> split at hs
  · simp at hs
  · simp only [List.mem_singleton] at hs
    subst hs
    exact containsCI_section_eq_false
      (densityIssue_no_section _ _ (by decide) (by intro c hc; fin_cases hc <;> decide))
  · simp at hs
  · simp only [List.mem_singleton] at hs
    subst hs
    exact containsCI_section_eq_false
      (densityIssue_no_section _ _ (by decide) (by intro c hc; fin_cases hc <;> decide))

theorem crit8_section_free (a : ArticleContent) :
    ∀ s ∈ (crit8 a).2, mentionsSection s = false := by
  intro s hs
  simp only [crit8] at hs
  split at hs
  · split at hs
    · simp at hs
    · simp only [List.mem_singleton] at hs
      subst hs
      exact containsCI_section_eq_false (sentenceIssue_no_section _)
  · simp only [List.mem_singleton] at hs
    subst hs
    exact containsCI_section_eq_false (noSection_const (by decide))

/-- The criterion-6 issue does mention "section". -/
theorem sectionsIssue_mentions (n : ℕ) : mentionsSection (sectionsIssue n) = true := by
  rw [mentionsSection, containsCI, lower_sectionPat, hasSub_spec, sectionsIssue]
  rw [lowerChars, List.map_append, List.map_append]
  refine occurs_append_right _ (occurs_append_right _ ?_)
  rw [show ("Should have at least 4 H2 sections (has ".toList.map Char.toLower) =
      lowerChars "Should have at least 4 H2 sections (has ".toList from rfl, ← hasSub_spec]
  decide

/-- With fewer than 4 sections, criterion 6 emits exactly its issue. -/
theorem crit6_issue_of_lt (a : ArticleContent) (h : a.sections.length < 4) :
    crit6 a = (0, [sectionsIssue a.sections.length]) := by
  simp only [crit6]
  rw [if_neg]
  omega

/-- **C8.** If the article has fewer than 4 sections then, whatever the
other fields hold, exactly one string of the validator's issues list
matches "section" case-insensitively (the criterion-6 issue; every other
issue string is "section"-free). -/
theorem C8_exactly_one_section_issue (a : ArticleContent) (m : SEOMetadata) (t : ℤ)
    (h : a.sections.length < 4) :
    ((validate_seo_quality a m t).issues.countP mentionsSection) = 1 := by
  simp only [validate_seo_quality]
  rw [List.countP_append, List.countP_append, List.countP_append, List.countP_append,
      List.countP_append, List.countP_append, List.countP_append]
  have z1 : List.countP mentionsSection (crit1 m).2 = 0 := List.countP_eq_zero.mpr
    (fun s hs => by rw [crit1_section_free m s hs]; exact Bool.false_ne_true)
  have z2 : List.countP mentionsSection (crit2 m).2 = 0 := List.countP_eq_zero.mpr
    (fun s hs => by rw [crit2_section_free m s hs]; exact Bool.false_ne_true)
  have z3 : List.countP mentionsSection (crit3 a m).2 = 0 := List.countP_eq_zero.mpr
    (fun s hs => by rw [crit3_section_free a m s hs]; exact Bool.false_ne_true)
  have z4 : List.countP mentionsSection (crit4 a m).2 = 0 := List.countP_eq_zero.mpr
    (fun s hs => by rw [crit4_section_free a m s hs]; exact Bool.false_ne_true)
  have z5 : List.countP mentionsSection (crit5 a t).2 = 0 := List.countP_eq_zero.mpr
    (fun s hs => by rw [crit5_section_free a t s hs]; exact Bool.false_ne_true)
  have z7 : List.countP mentionsSection (crit7 a m).2 = 0 := List.countP_eq_zero.mpr
    (fun s hs => by rw [crit7_section_free a m s hs]; exact Bool.false_ne_true)
  have z8 : List.countP mentionsSection (crit8 a).2 = 0 := List.countP_eq_zero.mpr
    (fun s hs => by rw [crit8_section_free a s hs]; exact Bool.false_ne_true)
  have z6 : (crit6 a).2.countP mentionsSection = 1 := by
    rw [crit6_issue_of_lt a h]
    simp [List.countP_cons, sectionsIssue_mentions]
  rw [z1, z2, z3, z4, z5, z6, z7, z8]

/-- Witness for C8: an article with no sections at all. -/
theorem C8_exactly_one_section_issue_witness :
    ((validate_seo_quality ⟨[], [], [], 0⟩ ⟨[], [], []⟩ 1000).issues.countP
      mentionsSection) = 1 :=
  C8_exactly_one_section_issue ⟨[], [], [], 0⟩ ⟨[], [], []⟩ 1000 (by decide)

/-! ## C5: `analyze_keywords` density formula -/

/-- The density formula exactly as C5 words it: case-insensitive substring
count of the primary keyword in the article, divided by the whitespace-token
count, times 100, rounded to 2 decimals (in `ℚ`, division by a zero token
count yields 0, matching the code's guarded branch). -/
def specKeywordDensity (article_content primary_keyword : List Char) : ℚ :=
  pyRound2 (((countSub (lowerChars article_content) (lowerChars primary_keyword) : ℚ) /
    ((pySplit article_content).length : ℚ)) * 100)

/-- **C5.** `analyze_keywords` returns exactly the claimed density formula;
in particular a keyword with zero substring occurrences yields a density of
exactly 0 (this covers the 500-word scenario). -/
theorem C5_analyze_keywords_density (content kw : List Char) (sk : List (List Char)) :
    (analyze_keywords content kw sk).keyword_density = specKeywordDensity content kw ∧
    (countSub (lowerChars content) (lowerChars kw) = 0 →
      (analyze_keywords content kw sk).keyword_density = 0) := by
  constructor
  · simp only [analyze_keywords, specKeywordDensity]
    congr 1
    split
    · rfl
    · rename_i h
      have h0 : (pySplit content).length = 0 := by omega
      rw [h0]
      norm_num
  · intro h
    simp only [analyze_keywords, h]
    split
    · norm_num
      simpa using pyRound2_intCast 0
    · simpa using pyRound2_intCast 0

/-- Witness for C5 at a concrete keyword-free article. -/
theorem C5_analyze_keywords_density_witness :
    (analyze_keywords "a b".toList "z".toList []).keyword_density =
      specKeywordDensity "a b".toList "z".toList ∧
    (analyze_keywords "a b".toList "z".toList []).keyword_density = 0 :=
  ⟨(C5_analyze_keywords_density "a b".toList "z".toList []).1,
   (C5_analyze_keywords_density "a b".toList "z".toList []).2 (by decide)⟩

/-! ## C4: substring counting vs word-boundary counting -/

/-- Article text exhibiting the discrepancy: `"cat"` occurs 3 times as a
substring (in `cat`, `cats`, `catalog`) but only once with word
boundaries. -/
def c4text : List Char := "cat cats catalog dog".toList

/-- The article as the pipeline would build it: `full_text = c4text`,
`word_count = len(full_text.split()) = 4`. -/
def c4article : ArticleContent := ⟨[], [], c4text, 4⟩

/-- Metadata whose focus keyword is the same string as the primary
keyword. -/
def c4meta : SEOMetadata := ⟨[], [], "cat".toList⟩

/-- **C4.** The keyword-occurrence count of `analyze_keywords`
(case-insensitive substring count) and the count of the Quality Validator's
density criterion (case-insensitive word-boundary regex count) are
different functions: on `c4text` with keyword `"cat"` passed as both
`primary_keyword` and `focus_keyword`, the former counts 3 and yields
density 75%, the latter counts 1 and yields density 25%. -/
theorem C4_substring_vs_word_boundary_density :
    countSub (lowerChars c4text) (lowerChars "cat".toList) = 3 ∧
    validatorKeywordCount c4article c4meta = 1 ∧
    (analyze_keywords c4text "cat".toList []).keyword_density = 75 ∧
    validatorDensity c4article c4meta = 25 ∧
    (analyze_keywords c4text "cat".toList []).keyword_density ≠
      validatorDensity c4article c4meta := by
  have h75 : (analyze_keywords c4text "cat".toList []).keyword_density = 75 := by
    simp only [analyze_keywords]
    rw [show countSub (lowerChars c4text) (lowerChars "cat".toList) = 3 from by decide,
        show (pySplit c4text).length = 4 from by decide]
    rw [if_pos (by norm_num)]
    have h : ((3 : ℕ) : ℚ) / ((4 : ℕ) : ℚ) * 100 = ((75 : ℤ) : ℚ) := by norm_num
    rw [h, pyRound2_intCast]
    norm_num
  have h25 : validatorDensity c4article c4meta = 25 := by
    simp only [validatorDensity]
    rw [if_pos (by decide),
        show validatorKeywordCount c4article c4meta = 1 from by decide]
    show ((1 : ℕ) : ℚ) / ((4 : ℤ) : ℚ) * 100 = 25
    norm_num
  refine ⟨by decide, by decide, h75, h25, ?_⟩
  rw [h75, h25]
  norm_num

/-! ## C6: outline generator fallback -/

/-- **C6.** When the model call raises, `generate_outline` returns the
fixed fallback outline: its `h1` contains the title-cased topic, it has
exactly the 5 sections Introduction / Understanding / Benefits /
Best Practices / Conclusion with the fixed word counts
`[200, 300, 250, 400, 150]` summing to 1300, independently of the requested
`target_word_count`. -/
theorem C6_outline_fallback (topic : List Char) (target other_target : ℤ) :
    generate_outline none topic target = fallbackOutline topic ∧
    generate_outline none topic target = generate_outline none topic other_target ∧
    (fallbackOutline topic).h1 = "The Complete Guide to ".toList ++ pyTitle topic ∧
    pyTitle topic <:+: (fallbackOutline topic).h1 ∧
    (fallbackOutline topic).sections.length = 5 ∧
    (fallbackOutline topic).sections.map OutlineSection.word_count =
      [200, 300, 250, 400, 150] ∧
    ((fallbackOutline topic).sections.map OutlineSection.word_count).sum = 1300 ∧
    (fallbackOutline topic).sections.map OutlineSection.h2 =
      ["Introduction".toList, "Understanding ".toList ++ pyTitle topic,
       "Benefits of ".toList ++ pyTitle topic,
       "Best Practices for ".toList ++ pyTitle topic, "Conclusion".toList] := by
  refine ⟨rfl, rfl, rfl, ⟨"The Complete Guide to ".toList, [], by simp [fallbackOutline]⟩,
    rfl, rfl, ?_, rfl⟩
  rw [show (fallbackOutline topic).sections.map OutlineSection.word_count =
      [200, 300, 250, 400, 150] from rfl]
  decide

/-! ## C7: one-shot content validation -/

/-- `strip` never lengthens a string. -/
theorem pyStrip_length_le (s : List Char) : (pyStrip s).length ≤ s.length := by
  rw [pyStrip, List.length_reverse]
  calc ((s.dropWhile isSpaceChar).reverse.dropWhile isSpaceChar).length
      ≤ (s.dropWhile isSpaceChar).reverse.length :=
        (List.dropWhile_sublist isSpaceChar).length_le
    _ = (s.dropWhile isSpaceChar).length := List.length_reverse _
    _ ≤ s.length := (List.dropWhile_sublist isSpaceChar).length_le

/-- **C7.** In the one-shot path: a generated text that is empty or shorter
than 500 characters makes the one-shot method raise (its stripped form is
also shorter than 500, so the length guard fires), and any such exception
routes `generate_article` to the section-by-section fallback; a
sufficiently long text that does not start with the expected `# {h1}`
heading is not rejected — the H1 line is prepended and the result is
returned successfully. -/
theorem C7_oneshot_validation (h1 text e : List Char) (fallback : ArticleContent) :
    ((text = [] ∨ text.length < 500) →
      oneshotValidate h1 text = Except.error (tooShortMsg text.length)) ∧
    generate_article_route (Except.error e) fallback = fallback ∧
    (¬ (text.isEmpty = true ∨ (pyStrip text).length < 500) →
      (h1Heading h1).isPrefixOf (pyStrip text) = false →
      oneshotValidate h1 text =
        Except.ok (pyStrip (h1Heading h1 ++ "\n\n".toList ++ text))) := by
  refine ⟨?_, rfl, ?_⟩
  · intro h
    rw [oneshotValidate, if_pos]
    rcases h with h | h
    · left
      simp [h]
    · right
      exact lt_of_le_of_lt (pyStrip_length_le text) h
  · intro h hpre
    rw [oneshotValidate, if_neg h]
    simp [hpre]

set_option maxRecDepth 8000 in
/-- Witness for C7: the empty text raises and routes to the fallback; a
500-character non-heading text gets the H1 line prepended. -/
theorem C7_oneshot_validation_witness :
    oneshotValidate "T".toList [] = Except.error (tooShortMsg 0) ∧
    generate_article_route (Except.error (tooShortMsg 0)) ⟨[], [], [], 0⟩ =
      (⟨[], [], [], 0⟩ : ArticleContent) ∧
    oneshotValidate "T".toList (List.replicate 500 'a') =
      Except.ok (pyStrip (h1Heading "T".toList ++ "\n\n".toList ++ List.replicate 500 'a')) := by
  refine ⟨?_, ?_, ?_⟩
  · exact (C7_oneshot_validation "T".toList [] (tooShortMsg 0) ⟨[], [], [], 0⟩).1
      (Or.inl rfl)
  · exact (C7_oneshot_validation "T".toList [] (tooShortMsg 0) ⟨[], [], [], 0⟩).2.1
  · exact (C7_oneshot_validation "T".toList (List.replicate 500 'a') (tooShortMsg 0)
      ⟨[], [], [], 0⟩).2.2 (by decide) (by decide)

/-! ## C2: orchestrator persistence and propagation -/

/-- **C2.** If any pipeline step fails, the orchestrator writes the error
message (prefixed `"Generation failed: "`) and status `FAILED` plus a
completion timestamp, leaves the job's `result` field untouched (so an
initially empty result stays empty — no partial results), and the
exception propagates to the caller; the first failing step short-circuits
the remaining steps.  If every step succeeds, it writes the serialized
output as `result` with status `COMPLETED` and a completion timestamp, and
returns the output. -/
theorem C2_orchestrator_persistence {α : Type} (job : JobRecord α)
    (steps rest : List (Except (List Char) Unit)) (output : α) (now : ℕ) (e : List Char) :
    (runSteps (Except.error e :: rest) = Except.error e) ∧
    (runSteps steps = Except.error e →
      (orchestrator_generate job steps output now).1.status = JobStatusEnum.FAILED ∧
      (orchestrator_generate job steps output now).1.error =
        some ("Generation failed: ".toList ++ e) ∧
      (orchestrator_generate job steps output now).1.result = job.result ∧
      (job.result = none → (orchestrator_generate job steps output now).1.result = none) ∧
      (orchestrator_generate job steps output now).1.completed_at = some now ∧
      (orchestrator_generate job steps output now).2 = Except.error e) ∧
    (runSteps steps = Except.ok () →
      (orchestrator_generate job steps output now).1.status = JobStatusEnum.COMPLETED ∧
      (orchestrator_generate job steps output now).1.result = some output ∧
      (orchestrator_generate job steps output now).1.completed_at = some now ∧
      (orchestrator_generate job steps output now).2 = Except.ok output) := by
  refine ⟨rfl, ?_, ?_⟩
  · intro h
    simp [orchestrator_generate, h]
  · intro h
    simp [orchestrator_generate, h]

/-- Witness for C2: a pipeline failing at its second step, and a fully
successful pipeline, over an initially empty job record. -/
theorem C2_orchestrator_persistence_witness :
    (orchestrator_generate (⟨JobStatusEnum.RUNNING, none, none, none⟩ : JobRecord ℕ)
      [Except.ok (), Except.error "boom".toList] 7 5).1.status = JobStatusEnum.FAILED ∧
    (orchestrator_generate (⟨JobStatusEnum.RUNNING, none, none, none⟩ : JobRecord ℕ)
      [Except.ok (), Except.error "boom".toList] 7 5).1.result = none ∧
    (orchestrator_generate (⟨JobStatusEnum.RUNNING, none, none, none⟩ : JobRecord ℕ)
      [Except.ok ()] 7 5).1.status = JobStatusEnum.COMPLETED ∧
    (orchestrator_generate (⟨JobStatusEnum.RUNNING, none, none, none⟩ : JobRecord ℕ)
      [Except.ok ()] 7 5).1.result = some 7 := by
  have hfail := (C2_orchestrator_persistence
    (⟨JobStatusEnum.RUNNING, none, none, none⟩ : JobRecord ℕ)
    [Except.ok (), Except.error "boom".toList] [] 7 5 "boom".toList).2.1 rfl
  have hok := (C2_orchestrator_persistence
    (⟨JobStatusEnum.RUNNING, none, none, none⟩ : JobRecord ℕ)
    [Except.ok ()] [] 7 5 "boom".toList).2.2 rfl
  exact ⟨hfail.1, hfail.2.2.2.1 rfl, hok.1, hok.2.1⟩

/-! ## C3: the markdown section parser -/

/-- The number of lines that *begin with* `"## "` — the (over-broad) count
the claim uses; the regex `^## (.+?)$` additionally requires at least one
character after the space, i.e. `isH2Line`. -/
def linesStartingH2 (text : List Char) : ℕ :=
  ((splitLines text).filter (fun l => "## ".toList.isPrefixOf l)).length

/-- The claim's concatenation property: the given contents, interleaved
with whitespace-only gaps, reassemble the target string. -/
def interleavesWs : List (List Char) → List Char → Prop
  | [], target => ∀ c ∈ target, isSpaceChar c = true
  | c :: cs, target =>
    ∃ ws rest, (∀ x ∈ ws, isSpaceChar x = true) ∧
      target = ws ++ c ++ rest ∧ interleavesWs cs rest

/-- `splitLines` never produces the empty list of lines. -/
theorem splitLines_ne_nil (text : List Char) : splitLines text ≠ [] := by
  cases text with
  | nil => simp [splitLines]
  | cons c cs =>
    simp only [splitLines]
    split
    · simp
    · split <;> simp

/-- Joining the split lines with newlines is the identity: the line view is
lossless, so headings, contents and the separating whitespace together
reassemble the original text. -/
theorem joinLines_splitLines (text : List Char) : joinLines (splitLines text) = text := by
  induction text with
  | nil => rfl
  | cons c cs ih =>
    simp only [splitLines]
    split
    · rename_i hc
      subst hc
      obtain ⟨l, ls, hls⟩ := List.exists_cons_of_ne_nil (splitLines_ne_nil cs)
      rw [hls]
      rw [hls] at ih
      simp only [joinLines]
      rw [ih]
      simp
    · rename_i hc
      rcases hsp : splitLines cs with _ | ⟨l, ls⟩
      · exact absurd hsp (splitLines_ne_nil cs)
      · rw [hsp] at ih
        cases ls with
        | nil => simp only [joinLines] at ih ⊢; rw [ih]
        | cons l2 ls2 =>
          simp only [joinLines] at ih ⊢
          rw [List.cons_append, ih]

/-- A run of unmatched lines before any heading is skipped. -/
theorem parseLinesAux_skip (pre rest : List (List Char))
    (hpre : ∀ l ∈ pre, isH2Line l = false) :
    parseLinesAux (pre ++ rest) none = parseLinesAux rest none := by
  induction pre with
  | nil => rfl
  | cons l ls ih =>
    rw [List.cons_append]
    simp only [parseLinesAux]
    rw [hpre l (by simp), if_neg (by simp)]
    exact ih (fun x hx => hpre x (by simp [hx]))

/-- A run of unmatched lines is accumulated into the current section. -/
theorem parseLinesAux_gather (body rest : List (List Char)) (capture : List Char)
    (rbody : List (List Char)) (hbody : ∀ l ∈ body, isH2Line l = false) :
    parseLinesAux (body ++ rest) (some (capture, rbody)) =
      parseLinesAux rest (some (capture, body.reverse ++ rbody)) := by
  induction body generalizing rbody with
  | nil => rfl
  | cons l ls ih =>
    rw [List.cons_append]
    simp only [parseLinesAux]
    rw [hbody l (by simp), if_neg (by simp)]
    rw [ih (l :: rbody) (fun x hx => hbody x (by simp [hx]))]
    simp

/-- Running the scanner over well-formed heading/body groups with a pending
section flushes the pending section and emits one section per group. -/
theorem parseLinesAux_groups (groups : List (List Char × List (List Char)))
    (capture : List Char) (rbody : List (List Char))
    (hg : ∀ g ∈ groups, isH2Line g.1 = true ∧ ∀ l ∈ g.2, isH2Line l = false) :
    parseLinesAux ((groups.map fun g => g.1 :: g.2).flatten) (some (capture, rbody)) =
      mkParsedSection capture rbody.reverse ::
        groups.map (fun g => mkParsedSection (g.1.drop 3) g.2) := by
  induction groups generalizing capture rbody with
  | nil => rfl
  | cons g gs ih =>
    simp only [List.map_cons, List.flatten_cons, List.cons_append]
    simp only [parseLinesAux]
    rw [(hg g (by simp)).1, if_pos rfl]
    rw [parseLinesAux_gather g.2 _ _ _ (hg g (by simp)).2]
    rw [ih _ _ (fun x hx => hg x (by simp [hx]))]
    simp

/-- With no matched heading line the scanner produces no sections. -/
theorem parseLinesAux_none (ls : List (List Char))
    (h : ∀ l ∈ ls, isH2Line l = false) : parseLinesAux ls none = [] := by
  induction ls with
  | nil => rfl
  | cons l rest ih =>
    simp only [parseLinesAux]
    rw [h l (by simp), if_neg (by simp)]
    exact ih (fun x hx => h x (by simp [hx]))

/-- The counterexample text for C3 as stated: the middle line `"## "`
*begins with* `"## "` (so the claim counts it) but does not match the
parser's regex `^## (.+?)$`, which needs at least one character after the
space; and the parsed contents exclude the preamble and the heading lines,
so they cannot reassemble the stripped original body from whitespace-only
gaps alone. -/
def c3text : List Char := "pre\n## \n## A\nbody".toList

/-- **C3, counterexample.** `c3text` has exactly 2 lines beginning with
`"## "` but the parser yields exactly 1 section, and that section's
contents (interleaved with whitespace-only gaps) cannot rebuild the
stripped original body. -/
theorem C3_parser_counterexample :
    linesStartingH2 c3text = 2 ∧
    (parse_article_into_sections c3text []).length = 1 ∧
    (parse_article_into_sections c3text []).map ArticleSection.content = ["body".toList] ∧
    ¬ interleavesWs ((parse_article_into_sections c3text []).map ArticleSection.content)
        (pyStrip c3text) := by
  refine ⟨by decide, by decide, by decide, ?_⟩
  rw [show (parse_article_into_sections c3text []).map ArticleSection.content =
      ["body".toList] from by decide]
  rw [show pyStrip c3text = c3text from by decide]
  intro hcon
  obtain ⟨ws, rest, hws, heq, _⟩ := hcon
  cases ws with
  | nil =>
    have hhead : c3text.head? = some 'b' := by rw [heq]; rfl
    rw [show c3text.head? = some 'p' from by decide] at hhead
    simp at hhead
  | cons a as =>
    have hhead : c3text.head? = some a := by rw [heq]; rfl
    rw [show c3text.head? = some 'p' from by decide] at hhead
    have ha : a = 'p' := by simpa using hhead.symm
    subst ha
    have hsp := hws 'p' (by simp)
    simp [isSpaceChar] at hsp

/-- **C3, amended.** For every markdown text, the `splitLines` view is
lossless (`joinLines` rebuilds the text, so sections' contents together
with the heading lines and separating whitespace reassemble the original);
if the line sequence decomposes into an unmatched preamble followed by
`N ≥ 1` groups, each a matched heading line (`"## "` plus at least one
character) with its unmatched body lines, the parser yields exactly `N`
`ArticleSection` entries — the i-th built from the i-th capture and body
slice; and with zero matched lines and a nonempty outline it yields one
placeholder per outline entry (fixed parsing-failed message, word_count
0). -/
theorem C3_parser_sections_amended :
    (∀ text, joinLines (splitLines text) = text) ∧
    (∀ text (sd : List OutlineSection) (pre : List (List Char))
        (groups : List (List Char × List (List Char))),
      splitLines text = pre ++ (groups.map fun g => g.1 :: g.2).flatten →
      (∀ l ∈ pre, isH2Line l = false) →
      (∀ g ∈ groups, isH2Line g.1 = true ∧ ∀ l ∈ g.2, isH2Line l = false) →
      groups ≠ [] →
      parse_article_into_sections text sd =
        groups.map (fun g => mkParsedSection (g.1.drop 3) g.2) ∧
      (parse_article_into_sections text sd).length = groups.length) ∧
    (∀ text (sd : List OutlineSection),
      (∀ l ∈ splitLines text, isH2Line l = false) → sd ≠ [] →
      parse_article_into_sections text sd = sd.map placeholderSection) := by
  refine ⟨joinLines_splitLines, ?_, ?_⟩
  · intro text sd pre groups hsplit hpre hg hne
    have hparsed : parseLinesAux (splitLines text) none =
        groups.map (fun g => mkParsedSection (g.1.drop 3) g.2) := by
      rw [hsplit, parseLinesAux_skip _ _ hpre]
      obtain ⟨g, gs, rfl⟩ := List.exists_cons_of_ne_nil hne
      simp only [List.map_cons, List.flatten_cons, List.cons_append]
      simp only [parseLinesAux]
      rw [(hg g (by simp)).1, if_pos rfl]
      rw [parseLinesAux_gather g.2 _ _ _ (hg g (by simp)).2]
      rw [parseLinesAux_groups gs _ _ (fun x hx => hg x (by simp [hx]))]
      simp
    have hne2 : parseLinesAux (splitLines text) none ≠ [] := by
      rw [hparsed]
      simp [hne]
    refine ⟨?_, ?_⟩
    · simp only [parse_article_into_sections]
      rw [if_neg (fun hcon => hne2 (List.isEmpty_iff.mp hcon.1))]
      exact hparsed
    · simp only [parse_article_into_sections]
      rw [if_neg (fun hcon => hne2 (List.isEmpty_iff.mp hcon.1)), hparsed,
        List.length_map]
  · intro text sd h hsd
    have h0 : parseLinesAux (splitLines text) none = [] := parseLinesAux_none _ h
    simp only [parse_article_into_sections, h0]
    rw [if_pos]
    exact ⟨by simp, by simpa using hsd⟩

/-- A text for the amended-C3 witness with a preamble and two matched
headings. -/
def c3goodText : List Char := "pre\n## A\nbody x\n## B".toList

/-- Witness for the amended C3 at concrete inputs. -/
theorem C3_parser_sections_amended_witness :
    joinLines (splitLines c3goodText) = c3goodText ∧
    parse_article_into_sections c3goodText [] =
      [⟨"A".toList, 2, "body x".toList, 2⟩, ⟨"B".toList, 2, [], 0⟩] ∧
    (parse_article_into_sections c3goodText []).length = 2 ∧
    parse_article_into_sections "no heading".toList [⟨"X".toList, [], 10, []⟩] =
      [⟨"X".toList, 2,
        "Content parsing failed - article generated but structure unclear.".toList, 0⟩] := by
  have hmain := (C3_parser_sections_amended.2.1 c3goodText [] ["pre".toList]
    [("## A".toList, ["body x".toList]), ("## B".toList, [])]
    (by decide) (by decide) (by decide) (by simp))
  refine ⟨C3_parser_sections_amended.1 c3goodText, hmain.1.trans (by decide), hmain.2, ?_⟩
  exact (C3_parser_sections_amended.2.2 "no heading".toList [⟨"X".toList, [], 10, []⟩]
    (by decide) (by simp)).trans (by decide)

